import Mathlib

/-!
Shallow embedding of the incident store and lifecycle engine of the
CPAN212_LAB3 repository (backend/src/store/incidents.store.js,
backend/src/utils/validate.js, backend/src/routes/incidents.routes.js,
backend/config.js), together with theorems settling the frozen claims.

Modelling conventions:
* JS strings are Lean `String`s; `String.length` stands for the JS
  `.length` (the claims never exercise astral code points, where the two
  differ).
* The module-level mutable variables `incidents` and `isInitialized` of
  incidents.store.js, plus the JSON file on disk, form an explicit
  `StoreState` record that every operation takes and returns.
* The JSON file content is modelled at the level of parsed JSON values
  (`Json`), i.e. after `JSON.parse` / before `JSON.stringify`; the
  string layer of JSON belongs to the runtime and round-trips parsed values.
* `fs.writeFile` failures (PersistenceFailure) are not modelled; no
  claim in scope quantifies over I/O failures.
* In-place mutation of a found array element (`incident.status = s`)
  is modelled by replacing the first id-matching element of the list.
-/

namespace Incidents

/-- An incident record as produced by `createIncident`:
`{ id, title, description, category, severity, status, reportedAt }`.
All field values in the source are strings. -/
structure Incident where
  id : String
  title : String
  description : String
  category : String
  severity : String
  status : String
  reportedAt : String
deriving Repr, DecidableEq

/-- The argument object passed to `createIncident` and spread into the new
record (`{ id: randomUUID(), ...data, status: "OPEN", reportedAt: ... }`).
The four named fields are the keys the validated value always carries; the
three `Override` fields model the possible presence of `id` / `status` /
`reportedAt` keys on the data object, which the JS spread would also copy
(the `id` key, copied after the `id:` assignment, overwrites the generated
UUID; `status` and `reportedAt` keys are themselves overwritten by the
assignments placed after the spread). -/
structure CreateData where
  title : String
  description : String
  category : String
  severity : String
  idOverride : Option String := none
  statusOverride : Option String := none
  reportedAtOverride : Option String := none
deriving Repr, DecidableEq

/-- A raw request body / CSV row as seen by `validateCreateIncident`:
each of the four fields is either a string or absent (undefined).
`none` models an absent field; `some ""` models the empty string, which is
also falsy in the `!body.title` test of the source. -/
structure Body where
  title : Option String := none
  description : Option String := none
  category : Option String := none
  severity : Option String := none
deriving Repr, DecidableEq

/-! Configuration constants from backend/config.js. -/

/-- `config.incidents.statuses`. -/
def statuses : List String := ["OPEN", "INVESTIGATING", "RESOLVED", "ARCHIVED"]

/-- `config.incidents.categories`. -/
def categories : List String := ["IT", "SAFETY", "FACILITIES", "OTHER"]

/-- `config.incidents.severities`. -/
def severities : List String := ["LOW", "MEDIUM", "HIGH"]

/-- `config.validation.title.minLength`. -/
def titleMinLength : Nat := 5

/-- `config.validation.title.maxLength`. -/
def titleMaxLength : Nat := 200

/-- `config.validation.description.minLength`. -/
def descriptionMinLength : Nat := 10

/-- `config.validation.description.maxLength`. -/
def descriptionMaxLength : Nat := 2000

/-- `config.storage.autoSave`. -/
def autoSave : Bool := true

/-! `validateCreateIncident` from backend/src/utils/validate.js. -/

/-- Result shape of `validateCreateIncident`: `{ ok, errors, value }`.
When `ok` is false callers ignore `value`; absent raw fields are rendered
as `""` in the typed `value` (they can only be absent when `ok` is false). -/
structure CreateValidation where
  ok : Bool
  errors : List String
  value : CreateData
deriving Repr, DecidableEq

/-- The error messages contributed by the title checks of
`validateCreateIncident` (`!body.title` is true for undefined and `""`). -/
def titleErrors (b : Body) : List String :=
  match b.title with
  | none => ["Title is required"]
  | some t =>
    if t = "" then ["Title is required"]
    else if t.length < titleMinLength then
      ["Title must be at least " ++ toString titleMinLength ++ " characters"]
    else if t.length > titleMaxLength then
      ["Title must not exceed " ++ toString titleMaxLength ++ " characters"]
    else []

/-- The error messages contributed by the description checks of
`validateCreateIncident`. -/
def descriptionErrors (b : Body) : List String :=
  match b.description with
  | none => ["Description is required"]
  | some d =>
    if d = "" then ["Description is required"]
    else if d.length < descriptionMinLength then
      ["Description must be at least " ++ toString descriptionMinLength ++ " characters"]
    else if d.length > descriptionMaxLength then
      ["Description must not exceed " ++ toString descriptionMaxLength ++ " characters"]
    else []

/-- The error messages contributed by the category check
(`categories.includes(body.category)`; `includes` of undefined is false). -/
def categoryErrors (b : Body) : List String :=
  if (match b.category with | some c => categories.contains c | none => false) then []
  else ["Invalid category. Must be one of: " ++ String.intercalate ", " categories]

/-- The error messages contributed by the severity check. -/
def severityErrors (b : Body) : List String :=
  if (match b.severity with | some sv => severities.contains sv | none => false) then []
  else ["Invalid severity. Must be one of: " ++ String.intercalate ", " severities]

/-- `validateCreateIncident(body)`: collects the four error groups in
source order and returns `ok = (errors.length === 0)` together with the
sanitized value `{ title, description, category, severity }` — exactly
those four keys, so the value carries no `id`/`status`/`reportedAt`. -/
def validateCreateIncident (b : Body) : CreateValidation :=
  let errors := titleErrors b ++ descriptionErrors b ++ categoryErrors b ++ severityErrors b
  { ok := errors.isEmpty
    errors := errors
    value :=
      { title := b.title.getD ""
        description := b.description.getD ""
        category := b.category.getD ""
        severity := b.severity.getD "" } }

/-! `validateStatusChange` from backend/src/utils/validate.js. -/

/-- The string-keyed properties every plain object literal inherits from
`Object.prototype`.  For such a key `k`, `transitions[k]` evaluates to the
inherited function (or, for `__proto__`, to `Object.prototype` itself):
a truthy value that is not an array. -/
def protoKeys : List String :=
  ["constructor", "hasOwnProperty", "isPrototypeOf", "propertyIsEnumerable",
   "toLocaleString", "toString", "valueOf",
   "__defineGetter__", "__defineSetter__", "__lookupGetter__",
   "__lookupSetter__", "__proto__"]

/-- Outcome of the JS property read `transitions[current]` on the object
literal `config.incidents.statusTransitions`:
an own property holding an array, an inherited (truthy, non-array)
member of `Object.prototype`, or `undefined`. -/
inductive TransitionsLookup where
  | arr (next : List String)
  | inherited
  | missing
deriving Repr, DecidableEq

/-- `config.incidents.statusTransitions[current]`, including the
prototype chain of the object literal. -/
def transitionsLookup (current : String) : TransitionsLookup :=
  if current = "OPEN" then .arr ["INVESTIGATING", "ARCHIVED"]
  else if current = "INVESTIGATING" then .arr ["RESOLVED"]
  else if current = "RESOLVED" then .arr ["ARCHIVED"]
  else if current = "ARCHIVED" then .arr ["OPEN"]
  else if protoKeys.contains current then .inherited
  else .missing

/-- Outcome of `validateStatusChange`: `{ ok: true, next }`,
`{ ok: false, error }`, or an uncaught `TypeError`
(`transitions[current].includes is not a function`). -/
inductive StatusCheck where
  | allow (next : String)
  | deny (error : String)
  | crash
deriving Repr, DecidableEq

/-- The body of `validateStatusChange` after the lookup
`transitions[current]`: `if (!transitions[current])` returns the
unknown-status denial; otherwise `transitions[current].includes(next)`
either decides the transition or, on an inherited non-array member,
throws a `TypeError`. -/
def statusCheckFor (current next : String) : TransitionsLookup → StatusCheck
  | .missing => .deny ("Invalid current status: " ++ current)
  | .inherited => .crash
  | .arr allowed =>
    if allowed.contains next then .allow next
    else
      .deny ("Invalid status transition from " ++ current ++ " to " ++ next ++
        ". Allowed: " ++ String.intercalate ", " allowed)

/-- `validateStatusChange(current, next)`: reads
`transitions[current]` (prototype chain included) and judges it. -/
def validateStatusChange (current next : String) : StatusCheck :=
  statusCheckFor current next (transitionsLookup current)

/-- Result shape of `validateArchive` / `validateReset`:
`{ ok }` or `{ ok: false, error }`. -/
structure StateCheck where
  ok : Bool
  error : Option String := none
deriving Repr, DecidableEq

/-- `validateArchive(currentStatus)`. -/
def validateArchive (currentStatus : String) : StateCheck :=
  if currentStatus ≠ "OPEN" ∧ currentStatus ≠ "RESOLVED" then
    { ok := false
      error := some "Only incidents in OPEN or RESOLVED status can be archived" }
  else { ok := true }

/-- `validateReset(currentStatus)`. -/
def validateReset (currentStatus : String) : StateCheck :=
  if currentStatus ≠ "ARCHIVED" then
    { ok := false
      error := some "Only archived incidents can be reset to OPEN status" }
  else { ok := true }

/-- The workflow graph exactly as enumerated in the specification (§4.1):
OPEN → {INVESTIGATING, ARCHIVED}; INVESTIGATING → {RESOLVED};
RESOLVED → {ARCHIVED}; ARCHIVED → {OPEN}.  This is the spec-side
definition against which the code-side predicates are compared. -/
def specGraphEdge (current next : String) : Bool :=
  (current == "OPEN" && (next == "INVESTIGATING" || next == "ARCHIVED")) ||
  (current == "INVESTIGATING" && next == "RESOLVED") ||
  (current == "RESOLVED" && next == "ARCHIVED") ||
  (current == "ARCHIVED" && next == "OPEN")

/-! Persistence layer of backend/src/store/incidents.store.js, modelled at
the level of parsed JSON values: `JSON.stringify(incidents, null, 2)`
written by `saveToFile` is the encoding of the collection, and
`JSON.parse` on the read in `initializeStore` recovers the same value. -/

/-- Parsed JSON values (the fragment produced by serialising incident
collections: strings, arrays, objects). -/
inductive Json where
  | str (s : String)
  | arr (elems : List Json)
  | obj (fields : List (String × Json))

/-- JS property read on a parsed JSON object: the first binding wins. -/
def objGet (fields : List (String × Json)) (key : String) : Option Json :=
  match fields with
  | [] => none
  | (k, v) :: rest => if k = key then some v else objGet rest key

/-- `JSON.stringify` image of one incident record (field order as in the
object literal of `createIncident`). -/
def encodeIncident (i : Incident) : Json :=
  .obj [("id", .str i.id), ("title", .str i.title),
    ("description", .str i.description), ("category", .str i.category),
    ("severity", .str i.severity), ("status", .str i.status),
    ("reportedAt", .str i.reportedAt)]

/-- `JSON.stringify` image of the whole collection. -/
def encodeIncidents (l : List Incident) : Json :=
  .arr (l.map encodeIncident)

/-- Reads one incident record back out of a parsed JSON value; `none` when
the value is not an object of seven string fields. -/
def decodeIncident (j : Json) : Option Incident :=
  match j with
  | .obj fields =>
    match objGet fields "id", objGet fields "title", objGet fields "description",
        objGet fields "category", objGet fields "severity", objGet fields "status",
        objGet fields "reportedAt" with
    | some (.str id), some (.str title), some (.str description),
        some (.str category), some (.str severity), some (.str status),
        some (.str reportedAt) =>
      some { id, title, description, category, severity, status, reportedAt }
    | _, _, _, _, _, _, _ => none
  | _ => none

/-- Reads a list of incidents out of a list of parsed JSON values. -/
def decodeIncidentList (js : List Json) : Option (List Incident) :=
  match js with
  | [] => some []
  | j :: rest =>
    match decodeIncident j, decodeIncidentList rest with
    | some i, some l => some (i :: l)
    | _, _ => none

/-- Reads the whole collection back out of the parsed file content. -/
def decodeIncidents (j : Json) : Option (List Incident) :=
  match j with
  | .arr js => decodeIncidentList js
  | _ => none

/-- The state of the store module: the module-level `incidents` array and
`isInitialized` flag of incidents.store.js, plus the durable JSON file
(`none` models a missing file / ENOENT). -/
structure StoreState where
  incidents : List Incident
  isInitialized : Bool
  file : Option Json

/-- `saveToFile()`: writes `JSON.stringify(incidents, null, 2)` over the
whole file (full-snapshot overwrite). -/
def saveToFile (s : StoreState) : StoreState :=
  { s with file := some (encodeIncidents s.incidents) }

/-- `save()` (the exported manual flush): delegates to `saveToFile`. -/
def save (s : StoreState) : StoreState :=
  saveToFile s

/-- `initializeStore()`: a no-op when already initialized; otherwise loads
`JSON.parse` of the file into `incidents` (a parsed value not shaped as an
incident list is outside the typed model and is read as `[]`, matching the
corrupt-file fallback branch), or, when the file is missing (ENOENT),
starts from `[]` and writes the empty collection; finally sets the flag. -/
def initializeStore (s : StoreState) : StoreState :=
  if s.isInitialized then s
  else
    match s.file with
    | some j =>
      { incidents := (decodeIncidents j).getD [], isInitialized := true, file := s.file }
    | none =>
      saveToFile { incidents := [], isInitialized := true, file := none }

/-- `listAll(includeArchived)`: the whole array, or the array filtered of
ARCHIVED incidents.  Purely a read — it takes no lock on the state and
returns no new state, so it can trigger no persistence. -/
def listAll (s : StoreState) (includeArchived : Bool) : List Incident :=
  if includeArchived then s.incidents
  else s.incidents.filter (fun i => i.status != "ARCHIVED")

/-- `findById(id)`: first array element with matching id, or undefined. -/
def findById (incidents : List Incident) (id : String) : Option Incident :=
  incidents.find? (fun i => i.id == id)

/-- In-place mutation `incident.status = st` of the object returned by
`findById`: replaces the first id-matching element of the array. -/
def setStatusFirst (incidents : List Incident) (id st : String) : List Incident :=
  match incidents with
  | [] => []
  | i :: rest =>
    if i.id == id then { i with status := st } :: rest
    else i :: setStatusFirst rest id st

/-- `createIncident(data)`: builds
`{ id: randomUUID(), ...data, status: "OPEN", reportedAt: new Date().toISOString() }`
(`genId` and `now` stand for the injected UUID generator and clock),
pushes it, saves when `config.storage.autoSave`, and returns it.
Per the spread order, an `id` key on `data` overwrites the generated UUID,
while `status` and `reportedAt` keys are overwritten by the trailing
assignments. -/
def createIncident (s : StoreState) (data : CreateData) (genId now : String) :
    Incident × StoreState :=
  let incident : Incident :=
    { id := data.idOverride.getD genId
      title := data.title
      description := data.description
      category := data.category
      severity := data.severity
      status := "OPEN"
      reportedAt := now }
  let s1 := { s with incidents := s.incidents ++ [incident] }
  (incident, if autoSave then saveToFile s1 else s1)

/-- `updateStatus(id, status)`: finds the incident (null when absent),
sets its status unconditionally, saves when autoSave, returns it. -/
def updateStatus (s : StoreState) (id st : String) : Option Incident × StoreState :=
  match findById s.incidents id with
  | none => (none, s)
  | some inc =>
    let s1 := { s with incidents := setStatusFirst s.incidents id st }
    (some { inc with status := st }, if autoSave then saveToFile s1 else s1)

/-- `archiveIncident(id)`: null when absent; null when the current status
is neither OPEN nor RESOLVED (the same null as not-found); otherwise sets
status to ARCHIVED, saves when autoSave, returns the record. -/
def archiveIncident (s : StoreState) (id : String) : Option Incident × StoreState :=
  match findById s.incidents id with
  | none => (none, s)
  | some inc =>
    if inc.status != "OPEN" && inc.status != "RESOLVED" then (none, s)
    else
      let s1 := { s with incidents := setStatusFirst s.incidents id "ARCHIVED" }
      (some { inc with status := "ARCHIVED" }, if autoSave then saveToFile s1 else s1)

/-- `resetArchivedIncident(id)`: null when absent; null when the current
status is not ARCHIVED (the same null as not-found); otherwise sets status
to OPEN, saves when autoSave, returns the record. -/
def resetArchivedIncident (s : StoreState) (id : String) : Option Incident × StoreState :=
  match findById s.incidents id with
  | none => (none, s)
  | some inc =>
    if inc.status != "ARCHIVED" then (none, s)
    else
      let s1 := { s with incidents := setStatusFirst s.incidents id "OPEN" }
      (some { inc with status := "OPEN" }, if autoSave then saveToFile s1 else s1)

/-! Route handlers from backend/src/routes/incidents.routes.js.
Each handler is the thin composition the claims quantify over: it performs
the lookups and validation checks in source order and then calls the store
operation.  `genId` / `now` stand for the injected UUID generator and
clock consumed inside `createIncident`. -/

/-- The HTTP response a handler produces: 200/201 with the record,
200 with a JSON null body (`res.json(updated)` when the store returned
null), 404, 400 with one error message, 400 with an error-message array,
or the catch-all 500 of the try/catch in the handler. -/
inductive RouteResult where
  | ok (inc : Incident)
  | okNull
  | notFound
  | badRequest (error : String)
  | badRequestList (errors : List String)
  | serverError (error : String)
deriving Repr, DecidableEq

/-- `PATCH /:id/status`: find (404 when absent), `validateStatusChange`
(400 on denial; the `TypeError` crash is caught by the surrounding
try/catch as a 500), then `updateStatus(incident.id, check.next)`. -/
def changeStatusRoute (s : StoreState) (id requested : String) :
    RouteResult × StoreState :=
  match findById s.incidents id with
  | none => (.notFound, s)
  | some inc =>
    match validateStatusChange inc.status requested with
    | .crash => (.serverError "Failed to update incident status", s)
    | .deny e => (.badRequest e, s)
    | .allow nxt =>
      match updateStatus s inc.id nxt with
      | (some updated, s1) => (.ok updated, s1)
      | (none, s1) => (.okNull, s1)

/-- `POST /:id/archive`: find (404), `validateArchive` (400), then
`archiveIncident(incident.id)` (400 when it still returns null). -/
def archiveRoute (s : StoreState) (id : String) : RouteResult × StoreState :=
  match findById s.incidents id with
  | none => (.notFound, s)
  | some inc =>
    if (validateArchive inc.status).ok then
      match archiveIncident s inc.id with
      | (some archived, s1) => (.ok archived, s1)
      | (none, s1) => (.badRequest "Failed to archive incident", s1)
    else (.badRequest ((validateArchive inc.status).error.getD ""), s)

/-- `POST /:id/reset`: find (404), `validateReset` (400), then
`resetArchivedIncident(incident.id)` (400 when it still returns null). -/
def resetRoute (s : StoreState) (id : String) : RouteResult × StoreState :=
  match findById s.incidents id with
  | none => (.notFound, s)
  | some inc =>
    if (validateReset inc.status).ok then
      match resetArchivedIncident s inc.id with
      | (some r, s1) => (.ok r, s1)
      | (none, s1) => (.badRequest "Failed to reset incident", s1)
    else (.badRequest ((validateReset inc.status).error.getD ""), s)

/-- `POST /`: `validateCreateIncident` (400 with the error array on
failure), then `createIncident(result.value)` (201 with the record). -/
def createRoute (s : StoreState) (body : Body) (genId now : String) :
    RouteResult × StoreState :=
  let result := validateCreateIncident body
  if result.ok then
    let c := createIncident s result.value genId now
    (.ok c.1, c.2)
  else (.badRequestList result.errors, s)

/-- The ingestion summary returned by `POST /bulk-upload`:
`{ totalRows, created, skipped }`. -/
structure BulkSummary where
  totalRows : Nat
  created : Nat
  skipped : Nat
deriving Repr, DecidableEq

/-- The row loop of the bulk-upload handler: for each parsed row in order,
`validateCreateIncident`; on failure increment `skipped` and continue; on
success `createIncident(result.value)` and increment `created`.
`gen n` is the UUID the injected generator yields for the n-th created
row of the batch. -/
def bulkRows (s : StoreState) (rows : List Body) (gen : Nat → String)
    (now : String) (created skipped : Nat) : Nat × Nat × StoreState :=
  match rows with
  | [] => (created, skipped, s)
  | row :: rest =>
    let result := validateCreateIncident row
    if result.ok then
      let c := createIncident s result.value (gen created) now
      bulkRows c.2 rest gen now (created + 1) skipped
    else bulkRows s rest gen now created (skipped + 1)

/-- `POST /bulk-upload` after CSV parsing: runs the row loop from zero
counters and reports `{ totalRows: records.length, created, skipped }`. -/
def bulkUploadRoute (s : StoreState) (rows : List Body) (gen : Nat → String)
    (now : String) : BulkSummary × StoreState :=
  let r := bulkRows s rows gen now 0 0
  ({ totalRows := rows.length, created := r.1, skipped := r.2.1 }, r.2.2)

/-! Helper functions and lemmas shared by the claim theorems. -/

/-- Whether a `validateStatusChange` outcome is the `{ ok: true }` case. -/
def StatusCheck.isAllow : StatusCheck → Bool
  | .allow _ => true
  | _ => false

/-- Two incident records that agree on every field except possibly
`status`. -/
def sameExceptStatus (a b : Incident) : Prop :=
  b.id = a.id ∧ b.title = a.title ∧ b.description = a.description ∧
  b.category = a.category ∧ b.severity = a.severity ∧ b.reportedAt = a.reportedAt

/-- Collection `l2` arises from `l` by changing nothing but, at some
positions, the `status` field, and any such change follows an edge of the
workflow graph of the specification. -/
def edgesOnly (l l2 : List Incident) : Prop :=
  l2.length = l.length ∧ ∀ (k : Nat) (h1 : k < l.length) (h2 : k < l2.length),
    l2.get ⟨k, h2⟩ = l.get ⟨k, h1⟩ ∨
    (sameExceptStatus (l.get ⟨k, h1⟩) (l2.get ⟨k, h2⟩) ∧
      specGraphEdge (l.get ⟨k, h1⟩).status (l2.get ⟨k, h2⟩).status = true)

lemma edgesOnly_refl (l : List Incident) : edgesOnly l l :=
  ⟨rfl, fun _ _ _ => Or.inl rfl⟩

lemma findById_eq_id {l : List Incident} {id : String} {inc : Incident}
    (h : findById l id = some inc) : inc.id = id := by
  have h2 := List.find?_some h
  simpa using h2

lemma findById_self {l : List Incident} {id : String} {inc : Incident}
    (h : findById l id = some inc) : findById l inc.id = some inc := by
  rw [findById_eq_id h]; exact h

lemma setStatusFirst_length (l : List Incident) (id st : String) :
    (setStatusFirst l id st).length = l.length := by
  induction l with
  | nil => rfl
  | cons i rest ih =>
    simp only [setStatusFirst]
    split <;> simp [ih]

lemma findById_setStatusFirst {l : List Incident} {id : String} {inc : Incident}
    (h : findById l id = some inc) (st : String) :
    findById (setStatusFirst l id st) id = some { inc with status := st } := by
  induction l with
  | nil => simp [findById] at h
  | cons i rest ih =>
    by_cases hid : i.id = id
    · have hbeq : (i.id == id) = true := by simpa using hid
      have hinc : inc = i := by
        simp [findById, List.find?, hbeq] at h
        exact h.symm
      subst hinc
      simp [setStatusFirst, findById, List.find?, hbeq]
    · have hbeq : (i.id == id) = false := by simpa using hid
      have hrest : findById rest id = some inc := by
        simpa [findById, List.find?, hbeq] using h
      have hres := ih hrest
      simpa [setStatusFirst, findById, List.find?, hbeq] using hres

lemma setStatusFirst_get {l : List Incident} {id : String} {inc : Incident}
    (h : findById l id = some inc) (st : String) :
    ∀ (k : Nat) (h1 : k < l.length) (h2 : k < (setStatusFirst l id st).length),
      (setStatusFirst l id st).get ⟨k, h2⟩ = l.get ⟨k, h1⟩ ∨
      ((setStatusFirst l id st).get ⟨k, h2⟩ = { inc with status := st } ∧
        l.get ⟨k, h1⟩ = inc) := by
  induction l with
  | nil => intro k h1; exact absurd h1 (by simp)
  | cons i rest ih =>
    intro k h1 h2
    by_cases hid : i.id = id
    · have hbeq : (i.id == id) = true := by simpa using hid
      have hinc : inc = i := by
        simp [findById, List.find?, hbeq] at h
        exact h.symm
      subst hinc
      match k with
      | 0 => right; constructor <;> simp [setStatusFirst, hbeq]
      | k + 1 =>
        left
        simp [setStatusFirst, hbeq]
    · have hbeq : (i.id == id) = false := by simpa using hid
      have hrest : findById rest id = some inc := by
        simpa [findById, List.find?, hbeq] using h
      match k with
      | 0 => left; simp [setStatusFirst, hbeq]
      | k + 1 =>
        have h1r : k < rest.length := by simpa using h1
        have h2r : k < (setStatusFirst rest id st).length := by
          simpa [setStatusFirst_length] using h1r
        have hres := ih hrest k h1r h2r
        simpa [setStatusFirst, hbeq] using hres

lemma findById_append_fresh {l : List Incident} {x : Incident}
    (hfresh : ∀ i ∈ l, i.id ≠ x.id) : findById (l ++ [x]) x.id = some x := by
  induction l with
  | nil => simp [findById]
  | cons i rest ih =>
    have hbeq : (i.id == x.id) = false := by simpa using hfresh i (by simp)
    have hres := ih (fun j hj => hfresh j (by simp [hj]))
    simpa [findById, List.find?, hbeq] using hres

lemma transitionsLookup_arr {c : String} {allowed : List String}
    (h : transitionsLookup c = .arr allowed) :
    (c = "OPEN" ∧ allowed = ["INVESTIGATING", "ARCHIVED"]) ∨
    (c = "INVESTIGATING" ∧ allowed = ["RESOLVED"]) ∨
    (c = "RESOLVED" ∧ allowed = ["ARCHIVED"]) ∨
    (c = "ARCHIVED" ∧ allowed = ["OPEN"]) := by
  unfold transitionsLookup at h
  split_ifs at h with h1 h2 h3 h4 h5 <;> simp_all

lemma validateStatusChange_allow {c n nx : String}
    (h : validateStatusChange c n = .allow nx) :
    nx = n ∧ specGraphEdge c n = true := by
  unfold validateStatusChange at h
  cases htl : transitionsLookup c <;> rw [htl] at h
  case missing => simp [statusCheckFor] at h
  case inherited => simp [statusCheckFor] at h
  case arr allowed =>
    rw [statusCheckFor] at h
    split at h
    case isFalse => cases h
    case isTrue hcond =>
      cases h
      refine ⟨rfl, ?_⟩
      rcases transitionsLookup_arr htl with ⟨hc, ha⟩ | ⟨hc, ha⟩ | ⟨hc, ha⟩ | ⟨hc, ha⟩ <;>
          subst hc <;> subst ha <;> simp at hcond
      · rcases hcond with h | h <;> subst h <;> rfl
      · subst hcond; rfl
      · subst hcond; rfl
      · subst hcond; rfl

lemma validateArchive_ok (st : String) :
    (validateArchive st).ok = true ↔ (st = "OPEN" ∨ st = "RESOLVED") := by
  unfold validateArchive
  split_ifs with h <;> simp_all <;> tauto

lemma validateReset_ok (st : String) :
    (validateReset st).ok = true ↔ st = "ARCHIVED" := by
  unfold validateReset
  split_ifs with h <;> simp_all

lemma archiveGuard_false_iff (st : String) :
    (st != "OPEN" && st != "RESOLVED") = false ↔ (st = "OPEN" ∨ st = "RESOLVED") := by
  simp [bne]
  tauto

lemma resetGuard_false_iff (st : String) :
    (st != "ARCHIVED") = false ↔ st = "ARCHIVED" := by
  simp [bne]

lemma decodeIncident_encodeIncident (i : Incident) :
    decodeIncident (encodeIncident i) = some i := rfl

lemma decodeIncidentList_map (l : List Incident) :
    decodeIncidentList (l.map encodeIncident) = some l := by
  induction l with
  | nil => rfl
  | cons i rest ih =>
    simp [List.map, decodeIncidentList, decodeIncident_encodeIncident, ih]

lemma decodeIncidents_encodeIncidents (l : List Incident) :
    decodeIncidents (encodeIncidents l) = some l := by
  simp [decodeIncidents, encodeIncidents, decodeIncidentList_map]

lemma filter_not_length {α : Type} (p : α → Bool) (l : List α) :
    (l.filter p).length + (l.filter (fun a => !p a)).length = l.length := by
  induction l with
  | nil => rfl
  | cons a rest ih =>
    by_cases hp : p a = true <;> simp [List.filter, hp] <;> omega

/-! Concrete incidents, creation data and rows used by witnesses and
counterexamples. -/

/-- A pre-validated creation payload (the shape `validateCreateIncident`
produces on success). -/
def dValid : CreateData :=
  { title := "Server room overheating"
    description := "The server room is too hot"
    category := "IT"
    severity := "HIGH" }

/-- A creation payload carrying an extra `id` key, as an unsanitized
caller could supply. -/
def dHijack : CreateData :=
  { title := "Fire drill report"
    description := "Scheduled fire drill record"
    category := "SAFETY"
    severity := "LOW"
    idOverride := some "hijacked-id" }

/-- A stored incident currently under investigation. -/
def incInvestigating : Incident :=
  { id := "a1", title := "Broken door", description := "Door does not close properly"
    category := "FACILITIES", severity := "LOW", status := "INVESTIGATING"
    reportedAt := "2024-03-01T10:00:00Z" }

/-- A stored incident currently open. -/
def incOpen : Incident :=
  { id := "a2", title := "Lost badge", description := "Employee badge lost at site"
    category := "OTHER", severity := "LOW", status := "OPEN"
    reportedAt := "2024-03-02T10:00:00Z" }

/-- The three-row batch of the bulk-ingestion scenario in the specification:
valid, invalid (missing title), valid. -/
def exampleRows : List Body :=
  [{ title := some "Server room overheating"
     description := some "The server room is too hot"
     category := some "IT", severity := some "HIGH" },
   { description := some "The server room is too hot"
     category := some "IT", severity := some "HIGH" },
   { title := some "Printer on fire again"
     description := some "Second floor printer smoking"
     category := some "FACILITIES", severity := some "HIGH" }]

/-! The claim theorems. -/

/-- C7: `listAll(true)` returns the whole collection and `listAll(false)`
returns exactly the incidents whose status is not ARCHIVED, as the
order-preserving filter of the collection (hence a sublist in insertion
order).  `listAll` is a pure read of the state — it produces no new store
state and in particular triggers no persistence. -/
theorem claim_c7_listAll (s : StoreState) :
    listAll s true = s.incidents ∧
    listAll s false = s.incidents.filter (fun i => i.status != "ARCHIVED") ∧
    List.Sublist (listAll s false) s.incidents := by
  refine ⟨rfl, rfl, ?_⟩
  have hsub : List.Sublist (s.incidents.filter (fun i => i.status != "ARCHIVED"))
      s.incidents := List.filter_sublist s.incidents
  simpa [listAll] using hsub

/-- C2: at the failing inputs — a `current` value that names an inherited
`Object.prototype` property, such as "toString" — `validateStatusChange`
neither allows nor denies: `transitions[current]` finds the inherited
member (truthy, so the unknown-status guard does not fire) and the
subsequent `.includes` call throws a `TypeError` (the `crash` outcome),
instead of returning the denial the specification requires. -/
theorem claim_c2_unknown_status_crashes :
    validateStatusChange "toString" "INVESTIGATING" = StatusCheck.crash ∧
    validateStatusChange "hasOwnProperty" "OPEN" = StatusCheck.crash ∧
    validateStatusChange "__proto__" "RESOLVED" = StatusCheck.crash :=
  ⟨rfl, rfl, rfl⟩

/-- C8: `initializeStore` after a prior `saveToFile` of a collection of N
incidents reproduces exactly those N incidents, with identical field
values in identical order: decoding the saved snapshot yields the very
same list. -/
theorem claim_c8_roundtrip (l : List Incident) (b : Bool) (f0 : Option Json) :
    (initializeStore
      { incidents := [], isInitialized := false,
        file := (saveToFile { incidents := l, isInitialized := b, file := f0 }).file }).incidents
      = l ∧
    (initializeStore
      { incidents := [], isInitialized := false,
        file := (saveToFile { incidents := l, isInitialized := b, file := f0 }).file }).incidents.length
      = l.length := by
  have hmain :
      (initializeStore
        { incidents := [], isInitialized := false,
          file := (saveToFile { incidents := l, isInitialized := b, file := f0 }).file }).incidents
        = l := by
    simp [initializeStore, saveToFile, decodeIncidents_encodeIncidents]
  exact ⟨hmain, by rw [hmain]⟩

/-- C10: `createIncident` assigns the UUID before spreading `data` and
assigns `status` / `reportedAt` after it, so for every data object the
stored status is OPEN and the stored reportedAt is the creation time
regardless of `status`/`reportedAt` keys on the data, while an `id` key on
the data overwrites the generated UUID (which is discarded); and the
sanitized value produced by `validateCreateIncident` carries exactly the
four fields title/description/category/severity and no such extra key. -/
theorem claim_c10_create_spread (s : StoreState) (d : CreateData) (g t : String) (b : Body) :
    (createIncident s d g t).1.status = "OPEN" ∧
    (createIncident s d g t).1.reportedAt = t ∧
    (d.idOverride = none → (createIncident s d g t).1.id = g) ∧
    (∀ i, d.idOverride = some i → (createIncident s d g t).1.id = i) ∧
    (validateCreateIncident b).value.idOverride = none ∧
    (validateCreateIncident b).value.statusOverride = none ∧
    (validateCreateIncident b).value.reportedAtOverride = none := by
  refine ⟨rfl, rfl, ?_, ?_, rfl, rfl, rfl⟩
  · intro h
    simp [createIncident, h]
  · intro i h
    simp [createIncident, h]

/-- Witness for C10 at a concrete input: a data object carrying an `id`
key makes the stored id equal the value under that key, while status is still
forced to OPEN. -/
theorem claim_c10_witness :
    (createIncident ⟨[], true, none⟩ dHijack "fresh-uuid" "2024-05-01T00:00:00Z").1.id
      = "hijacked-id" ∧
    (createIncident ⟨[], true, none⟩ dHijack "fresh-uuid" "2024-05-01T00:00:00Z").1.status
      = "OPEN" := by
  have h := claim_c10_create_spread ⟨[], true, none⟩ dHijack "fresh-uuid"
    "2024-05-01T00:00:00Z" ⟨none, none, none, none⟩
  exact ⟨h.2.2.2.1 "hijacked-id" rfl, h.1⟩

/-- C6: for a pre-validated input (the four creation fields, no extra
keys) and a fresh generated id, `createIncident` followed immediately by
`findById` of the returned id yields exactly the new record: status OPEN,
the submitted title/description/category/severity, the generated id and
the creation timestamp. -/
theorem claim_c6_create_findById (s : StoreState) (d : CreateData) (g t : String)
    (hid : d.idOverride = none) (hfresh : ∀ i ∈ s.incidents, i.id ≠ g) :
    findById (createIncident s d g t).2.incidents (createIncident s d g t).1.id =
      some (createIncident s d g t).1 ∧
    (createIncident s d g t).1 =
      { id := g, title := d.title, description := d.description,
        category := d.category, severity := d.severity,
        status := "OPEN", reportedAt := t } := by
  have hinc : (createIncident s d g t).1 =
      { id := g, title := d.title, description := d.description,
        category := d.category, severity := d.severity,
        status := "OPEN", reportedAt := t } := by
    simp [createIncident, hid]
  refine ⟨?_, hinc⟩
  have hincs : (createIncident s d g t).2.incidents =
      s.incidents ++ [(createIncident s d g t).1] := rfl
  rw [hincs]
  apply findById_append_fresh
  intro i hi
  simpa [hinc] using hfresh i hi

/-- Witness for C6 at a concrete input: creating into the empty store and
reading the new id back returns the new OPEN record with the submitted
fields. -/
theorem claim_c6_witness :
    findById (createIncident ⟨[], true, none⟩ dValid "uuid-1" "2024-05-02T00:00:00Z").2.incidents
        (createIncident ⟨[], true, none⟩ dValid "uuid-1" "2024-05-02T00:00:00Z").1.id =
      some (createIncident ⟨[], true, none⟩ dValid "uuid-1" "2024-05-02T00:00:00Z").1 ∧
    (createIncident ⟨[], true, none⟩ dValid "uuid-1" "2024-05-02T00:00:00Z").1 =
      { id := "uuid-1", title := dValid.title, description := dValid.description,
        category := dValid.category, severity := dValid.severity,
        status := "OPEN", reportedAt := "2024-05-02T00:00:00Z" } :=
  claim_c6_create_findById ⟨[], true, none⟩ dValid "uuid-1" "2024-05-02T00:00:00Z" rfl
    (by simp)

/-- C4, counterexample: the store operations do not fail fast before
`initializeStore`.  On the never-initialized state, `createIncident`
succeeds and appends to the unloaded (empty) collection, and `listAll`
returns normally — there is no NotInitialized outcome anywhere in their
result types. -/
theorem claim_c4_counterexample :
    (⟨[], false, none⟩ : StoreState).isInitialized = false ∧
    (createIncident ⟨[], false, none⟩ dValid "uuid-1" "2024-05-03T00:00:00Z").2.incidents.length
      = 1 ∧
    (createIncident ⟨[], false, none⟩ dValid "uuid-1" "2024-05-03T00:00:00Z").1.status
      = "OPEN" ∧
    listAll ⟨[], false, none⟩ false = ([] : List Incident) :=
  ⟨rfl, rfl, rfl, rfl⟩

/-- C4, amended: no store operation consults `isInitialized` or fails
fast; each operates on whatever the in-memory collection currently is
(empty before initialization), and the observable result of every operation is
independent of the flag.  The only effect of the flag is that
`initializeStore` is a no-op when already set. -/
theorem claim_c4_amended_no_guard (s : StoreState) (b q : Bool) (d : CreateData)
    (g t id st : String) :
    (s.isInitialized = true → initializeStore s = s) ∧
    listAll { s with isInitialized := b } q = listAll s q ∧
    findById ({ s with isInitialized := b } : StoreState).incidents id
      = findById s.incidents id ∧
    (createIncident { s with isInitialized := b } d g t).1 = (createIncident s d g t).1 ∧
    (createIncident { s with isInitialized := b } d g t).2.incidents
      = (createIncident s d g t).2.incidents ∧
    (updateStatus { s with isInitialized := b } id st).1 = (updateStatus s id st).1 ∧
    (updateStatus { s with isInitialized := b } id st).2.incidents
      = (updateStatus s id st).2.incidents ∧
    (archiveIncident { s with isInitialized := b } id).1 = (archiveIncident s id).1 ∧
    (archiveIncident { s with isInitialized := b } id).2.incidents
      = (archiveIncident s id).2.incidents ∧
    (resetArchivedIncident { s with isInitialized := b } id).1
      = (resetArchivedIncident s id).1 ∧
    (resetArchivedIncident { s with isInitialized := b } id).2.incidents
      = (resetArchivedIncident s id).2.incidents ∧
    (save { s with isInitialized := b }).file = (save s).file := by
  refine ⟨?_, rfl, rfl, rfl, rfl, ?_, ?_, ?_, ?_, ?_, ?_, rfl⟩
  · intro h
    simp [initializeStore, h]
  all_goals cases hf : findById s.incidents id
  all_goals simp [updateStatus, archiveIncident, resetArchivedIncident, hf]
  all_goals split <;> rfl

/-- Witness for the amended claim of C4: on an already-initialized state,
`initializeStore` is a no-op. -/
theorem claim_c4_witness :
    initializeStore ⟨[], true, none⟩ = (⟨[], true, none⟩ : StoreState) :=
  (claim_c4_amended_no_guard ⟨[], true, none⟩ true true dValid "g" "t" "id" "st").1 rfl

/-- C5, counterexample: at the store level the two rejection cases of
archive and reset are the same indistinct value.  `archiveIncident`
returns `null` both for a missing id and for an existing incident whose
status (INVESTIGATING) disallows archiving — the two outcomes are equal —
and likewise `resetArchivedIncident` for a missing id and a non-ARCHIVED
incident. -/
theorem claim_c5_counterexample :
    (archiveIncident ⟨[], true, none⟩ "a1").1 = none ∧
    (archiveIncident ⟨[incInvestigating], true, none⟩ "a1").1 = none ∧
    (archiveIncident ⟨[], true, none⟩ "a1").1
      = (archiveIncident ⟨[incInvestigating], true, none⟩ "a1").1 ∧
    (resetArchivedIncident ⟨[], true, none⟩ "a2").1 = none ∧
    (resetArchivedIncident ⟨[incOpen], true, none⟩ "a2").1 = none ∧
    (resetArchivedIncident ⟨[], true, none⟩ "a2").1
      = (resetArchivedIncident ⟨[incOpen], true, none⟩ "a2").1 :=
  ⟨rfl, rfl, rfl, rfl, rfl, rfl⟩

/-- C5, amended: the store-level archive/reset operations collapse
not-found and invalid-state into the same `null`; the distinction the
claim describes is made one layer up, by the route handlers, which answer
404 Not Found when `findById` misses and 400 with a state-specific error
message when `validateArchive` / `validateReset` denies. -/
theorem claim_c5_amended_route_distinguishes (s : StoreState) (id : String) :
    (findById s.incidents id = none →
      (archiveIncident s id).1 = none ∧ (resetArchivedIncident s id).1 = none ∧
      archiveRoute s id = (.notFound, s) ∧ resetRoute s id = (.notFound, s)) ∧
    (∀ inc, findById s.incidents id = some inc →
      ¬(inc.status = "OPEN" ∨ inc.status = "RESOLVED") →
      (archiveIncident s id).1 = none ∧
      archiveRoute s id =
        (.badRequest "Only incidents in OPEN or RESOLVED status can be archived", s)) ∧
    (∀ inc, findById s.incidents id = some inc → inc.status ≠ "ARCHIVED" →
      (resetArchivedIncident s id).1 = none ∧
      resetRoute s id =
        (.badRequest "Only archived incidents can be reset to OPEN status", s)) := by
  refine ⟨?_, ?_, ?_⟩
  · intro hf
    simp [archiveIncident, resetArchivedIncident, archiveRoute, resetRoute, hf]
  · intro inc hf hst
    push_neg at hst
    have hguard : (inc.status != "OPEN" && inc.status != "RESOLVED") = true := by
      simp [bne, hst.1, hst.2]
    have hva : validateArchive inc.status =
        { ok := false,
          error := some "Only incidents in OPEN or RESOLVED status can be archived" } := by
      simp [validateArchive, hst.1, hst.2]
    constructor
    · simp [archiveIncident, hf, hguard]
    · simp [archiveRoute, hf, hva]
  · intro inc hf hst
    have hguard : (inc.status != "ARCHIVED") = true := by simp [bne, hst]
    have hvr : validateReset inc.status =
        { ok := false,
          error := some "Only archived incidents can be reset to OPEN status" } := by
      simp [validateReset, hst]
    constructor
    · simp [resetArchivedIncident, hf, hguard]
    · simp [resetRoute, hf, hvr]

/-- Witness for the amended claim of C5: on the empty store the routes answer
404 for both archive and reset. -/
theorem claim_c5_witness :
    archiveRoute ⟨[], true, none⟩ "a1" = (.notFound, (⟨[], true, none⟩ : StoreState)) ∧
    resetRoute ⟨[], true, none⟩ "a1" = (.notFound, (⟨[], true, none⟩ : StoreState)) := by
  have h := (claim_c5_amended_route_distinguishes ⟨[], true, none⟩ "a1").1 rfl
  exact ⟨h.2.2.1, h.2.2.2⟩

/-- C3: for an incident present in the store, `archiveIncident` succeeds
exactly when its status is OPEN or RESOLVED (setting status to ARCHIVED in
the returned and the stored record) and `resetArchivedIncident` succeeds
exactly when its status is ARCHIVED (setting status to OPEN); whenever
either is rejected, the entire store state — the status of the incident and all
other fields included — is returned unchanged. -/
theorem claim_c3_archive_reset (s : StoreState) (id : String) (inc : Incident)
    (h : findById s.incidents id = some inc) :
    (archiveIncident s id).1.isSome = (inc.status == "OPEN" || inc.status == "RESOLVED") ∧
    (inc.status = "OPEN" ∨ inc.status = "RESOLVED" →
      (archiveIncident s id).1 = some { inc with status := "ARCHIVED" } ∧
      findById (archiveIncident s id).2.incidents id
        = some { inc with status := "ARCHIVED" }) ∧
    (¬(inc.status = "OPEN" ∨ inc.status = "RESOLVED") →
      archiveIncident s id = (none, s)) ∧
    (resetArchivedIncident s id).1.isSome = (inc.status == "ARCHIVED") ∧
    (inc.status = "ARCHIVED" →
      (resetArchivedIncident s id).1 = some { inc with status := "OPEN" } ∧
      findById (resetArchivedIncident s id).2.incidents id
        = some { inc with status := "OPEN" }) ∧
    (inc.status ≠ "ARCHIVED" → resetArchivedIncident s id = (none, s)) := by
  refine ⟨?_, ?_, ?_, ?_, ?_, ?_⟩
  · by_cases hst : inc.status = "OPEN" ∨ inc.status = "RESOLVED"
    · have hguard : (inc.status != "OPEN" && inc.status != "RESOLVED") = false :=
        (archiveGuard_false_iff inc.status).mpr hst
      have hbeq : (inc.status == "OPEN" || inc.status == "RESOLVED") = true := by
        rcases hst with hst | hst <;> simp [hst]
      simp [archiveIncident, h, hguard, hbeq]
    · push_neg at hst
      have hguard : (inc.status != "OPEN" && inc.status != "RESOLVED") = true := by
        simp [bne, hst.1, hst.2]
      have hbeq : (inc.status == "OPEN" || inc.status == "RESOLVED") = false := by
        simp [hst.1, hst.2]
      simp [archiveIncident, h, hguard, hbeq]
  · intro hst
    have hguard : (inc.status != "OPEN" && inc.status != "RESOLVED") = false :=
      (archiveGuard_false_iff inc.status).mpr hst
    constructor
    · simp [archiveIncident, h, hguard]
    · have hset := findById_setStatusFirst h "ARCHIVED"
      simp [archiveIncident, h, hguard, autoSave, saveToFile, hset]
  · intro hst
    push_neg at hst
    have hguard : (inc.status != "OPEN" && inc.status != "RESOLVED") = true := by
      simp [bne, hst.1, hst.2]
    simp [archiveIncident, h, hguard]
  · by_cases hst : inc.status = "ARCHIVED"
    · have hguard : (inc.status != "ARCHIVED") = false :=
        (resetGuard_false_iff inc.status).mpr hst
      simp [resetArchivedIncident, h, hguard, hst]
    · have hguard : (inc.status != "ARCHIVED") = true := by simp [bne, hst]
      have hbeq : (inc.status == "ARCHIVED") = false := by simp [hst]
      simp [resetArchivedIncident, h, hguard, hbeq]
  · intro hst
    have hguard : (inc.status != "ARCHIVED") = false :=
      (resetGuard_false_iff inc.status).mpr hst
    constructor
    · simp [resetArchivedIncident, h, hguard]
    · have hset := findById_setStatusFirst h "OPEN"
      simp [resetArchivedIncident, h, hguard, autoSave, saveToFile, hset]
  · intro hst
    have hguard : (inc.status != "ARCHIVED") = true := by simp [bne, hst]
    simp [resetArchivedIncident, h, hguard]

/-- Witness for C3 at a concrete input: the store holding one OPEN
incident archives it (status becomes ARCHIVED in the returned and stored
record), and reset on the same OPEN incident is rejected with the state
unchanged. -/
theorem claim_c3_witness :
    (archiveIncident ⟨[incOpen], true, none⟩ "a2").1
      = some { incOpen with status := "ARCHIVED" } ∧
    findById (archiveIncident ⟨[incOpen], true, none⟩ "a2").2.incidents "a2"
      = some { incOpen with status := "ARCHIVED" } ∧
    resetArchivedIncident ⟨[incOpen], true, none⟩ "a2"
      = (none, (⟨[incOpen], true, none⟩ : StoreState)) := by
  have h := claim_c3_archive_reset ⟨[incOpen], true, none⟩ "a2" incOpen rfl
  have hsucc := h.2.1 (Or.inl rfl)
  exact ⟨hsucc.1, hsucc.2, h.2.2.2.2.2 (by decide)⟩

lemma edgesOnly_setStatusFirst {l : List Incident} {id st : String} {inc : Incident}
    (h : findById l id = some inc) (hedge : specGraphEdge inc.status st = true) :
    edgesOnly l (setStatusFirst l id st) := by
  refine ⟨setStatusFirst_length l id st, ?_⟩
  intro k h1 h2
  rcases setStatusFirst_get h st k h1 h2 with heq | ⟨hnew, hold⟩
  · exact Or.inl heq
  · right
    rw [hnew, hold]
    exact ⟨⟨rfl, rfl, rfl, rfl, rfl, rfl⟩, hedge⟩

/-- C1: (a) for every stored incident and requested status that is not an
edge of the workflow graph of the specification out of its current status, the
status-change operation (the PATCH handler composed with the store) leaves
the whole store state unchanged and returns no success; (b) every
status-mutating operation of the API — status change, archive, reset —
either leaves an incident untouched or changes exactly its status field,
and any such change follows an edge of the workflow graph. -/
theorem claim_c1_transitions (s : StoreState) (id next : String) :
    (∀ inc, findById s.incidents id = some inc →
      specGraphEdge inc.status next = false →
      (changeStatusRoute s id next).2 = s ∧
      ∀ i, (changeStatusRoute s id next).1 ≠ RouteResult.ok i) ∧
    edgesOnly s.incidents (changeStatusRoute s id next).2.incidents ∧
    edgesOnly s.incidents (archiveRoute s id).2.incidents ∧
    edgesOnly s.incidents (resetRoute s id).2.incidents := by
  refine ⟨?_, ?_, ?_, ?_⟩
  · intro inc hf hfalse
    cases hv : validateStatusChange inc.status next with
    | allow nx =>
      have hedge := (validateStatusChange_allow hv).2
      rw [hedge] at hfalse
      cases hfalse
    | deny e =>
      constructor
      · simp [changeStatusRoute, hf, hv]
      · intro i
        simp [changeStatusRoute, hf, hv]
    | crash =>
      constructor
      · simp [changeStatusRoute, hf, hv]
      · intro i
        simp [changeStatusRoute, hf, hv]
  · cases hf : findById s.incidents id with
    | none =>
      simp only [changeStatusRoute, hf]
      exact edgesOnly_refl _
    | some inc =>
      cases hv : validateStatusChange inc.status next with
      | allow nx =>
        obtain ⟨hnx, hedge⟩ := validateStatusChange_allow hv
        rw [hnx] at hv
        have hupd : updateStatus s inc.id next =
            (some { inc with status := next },
              saveToFile { s with incidents := setStatusFirst s.incidents inc.id next }) := by
          simp [updateStatus, findById_self hf, autoSave]
        have hstate : (changeStatusRoute s id next).2.incidents =
            setStatusFirst s.incidents inc.id next := by
          simp [changeStatusRoute, hf, hv, hupd, saveToFile]
        rw [hstate]
        exact edgesOnly_setStatusFirst (findById_self hf) hedge
      | deny e =>
        simp only [changeStatusRoute, hf, hv]
        exact edgesOnly_refl _
      | crash =>
        simp only [changeStatusRoute, hf, hv]
        exact edgesOnly_refl _
  · cases hf : findById s.incidents id with
    | none =>
      simp only [archiveRoute, hf]
      exact edgesOnly_refl _
    | some inc =>
      by_cases hok : (validateArchive inc.status).ok = true
      · have hst := (validateArchive_ok inc.status).mp hok
        have hguard : (inc.status != "OPEN" && inc.status != "RESOLVED") = false :=
          (archiveGuard_false_iff inc.status).mpr hst
        have hedge : specGraphEdge inc.status "ARCHIVED" = true := by
          rcases hst with hst | hst <;> rw [hst] <;> rfl
        have harch : archiveIncident s inc.id =
            (some { inc with status := "ARCHIVED" },
              saveToFile { s with incidents := setStatusFirst s.incidents inc.id "ARCHIVED" }) := by
          simp [archiveIncident, findById_self hf, hguard, autoSave]
        have hstate : (archiveRoute s id).2.incidents =
            setStatusFirst s.incidents inc.id "ARCHIVED" := by
          simp [archiveRoute, hf, hok, harch, saveToFile]
        rw [hstate]
        exact edgesOnly_setStatusFirst (findById_self hf) hedge
      · have hroute : (archiveRoute s id).2 = s := by
          simp [archiveRoute, hf, hok]
        rw [hroute]
        exact edgesOnly_refl _
  · cases hf : findById s.incidents id with
    | none =>
      simp only [resetRoute, hf]
      exact edgesOnly_refl _
    | some inc =>
      by_cases hok : (validateReset inc.status).ok = true
      · have hst := (validateReset_ok inc.status).mp hok
        have hguard : (inc.status != "ARCHIVED") = false :=
          (resetGuard_false_iff inc.status).mpr hst
        have hedge : specGraphEdge inc.status "OPEN" = true := by
          rw [hst]; rfl
        have hres : resetArchivedIncident s inc.id =
            (some { inc with status := "OPEN" },
              saveToFile { s with incidents := setStatusFirst s.incidents inc.id "OPEN" }) := by
          simp [resetArchivedIncident, findById_self hf, hguard, autoSave]
        have hstate : (resetRoute s id).2.incidents =
            setStatusFirst s.incidents inc.id "OPEN" := by
          simp [resetRoute, hf, hok, hres, saveToFile]
        rw [hstate]
        exact edgesOnly_setStatusFirst (findById_self hf) hedge
      · have hroute : (resetRoute s id).2 = s := by
          simp [resetRoute, hf, hok]
        rw [hroute]
        exact edgesOnly_refl _

/-- Witness for C1 at a concrete input: requesting INVESTIGATING→ARCHIVED
(not an edge of the graph) leaves the store unchanged and yields no
success response. -/
theorem claim_c1_witness :
    (changeStatusRoute ⟨[incInvestigating], true, none⟩ "a1" "ARCHIVED").2
      = (⟨[incInvestigating], true, none⟩ : StoreState) ∧
    ∀ i, (changeStatusRoute ⟨[incInvestigating], true, none⟩ "a1" "ARCHIVED").1
      ≠ RouteResult.ok i :=
  (claim_c1_transitions ⟨[incInvestigating], true, none⟩ "a1" "ARCHIVED").1
    incInvestigating rfl rfl

lemma bulkRows_spec (rows : List Body) :
    ∀ (s : StoreState) (gen : Nat → String) (now : String) (c k : Nat),
      (bulkRows s rows gen now c k).1 =
        c + (rows.filter (fun row => (validateCreateIncident row).ok)).length ∧
      (bulkRows s rows gen now c k).2.1 =
        k + (rows.filter (fun row => !(validateCreateIncident row).ok)).length ∧
      ∃ new : List Incident,
        (bulkRows s rows gen now c k).2.2.incidents = s.incidents ++ new ∧
        new.length = (rows.filter (fun row => (validateCreateIncident row).ok)).length := by
  induction rows with
  | nil =>
    intro s gen now c k
    exact ⟨by simp [bulkRows], by simp [bulkRows], [], by simp [bulkRows], by simp⟩
  | cons row rest ih =>
    intro s gen now c k
    by_cases hok : (validateCreateIncident row).ok = true
    · obtain ⟨h1, h2, new, h3, h4⟩ :=
        ih (createIncident s (validateCreateIncident row).value (gen c) now).2 gen now
          (c + 1) k
      have hstep : bulkRows s (row :: rest) gen now c k =
          bulkRows (createIncident s (validateCreateIncident row).value (gen c) now).2
            rest gen now (c + 1) k := by
        simp [bulkRows, hok]
      have hcreate :
          (createIncident s (validateCreateIncident row).value (gen c) now).2.incidents =
            s.incidents ++
              [(createIncident s (validateCreateIncident row).value (gen c) now).1] := rfl
      refine ⟨?_, ?_,
        (createIncident s (validateCreateIncident row).value (gen c) now).1 :: new,
        ?_, ?_⟩
      · rw [hstep, h1]
        simp [List.filter, hok]
        omega
      · rw [hstep, h2]
        simp [List.filter, hok]
      · rw [hstep, h3, hcreate]
        simp
      · simp [List.filter, hok, h4]
    · obtain ⟨h1, h2, new, h3, h4⟩ := ih s gen now c (k + 1)
      have hstep : bulkRows s (row :: rest) gen now c k =
          bulkRows s rest gen now c (k + 1) := by
        simp [bulkRows, hok]
      have hok2 : (validateCreateIncident row).ok = false := by
        simpa using hok
      refine ⟨?_, ?_, new, ?_, ?_⟩
      · rw [hstep, h1]
        simp [List.filter, hok2]
      · rw [hstep, h2]
        simp [List.filter, hok2]
        omega
      · rw [hstep, h3]
      · simp [List.filter, hok2, h4]

/-- C9: bulk ingestion processes the rows in order against the same
validation function used by single-record creation, creates an incident
for each valid row and skips each invalid one without aborting the batch;
the summary always satisfies totalRows = number of rows and
created + skipped = totalRows, created counts exactly the valid rows, and
exactly `created` new incidents are appended after the existing ones.  In
particular the batch [valid, invalid (missing title), valid] yields
{totalRows: 3, created: 2, skipped: 1} and exactly two incidents in the
previously empty store. -/
theorem claim_c9_bulk (s : StoreState) (rows : List Body) (gen : Nat → String)
    (now : String) :
    (bulkUploadRoute s rows gen now).1.totalRows = rows.length ∧
    (bulkUploadRoute s rows gen now).1.created + (bulkUploadRoute s rows gen now).1.skipped
      = rows.length ∧
    (bulkUploadRoute s rows gen now).1.created
      = (rows.filter (fun row => (validateCreateIncident row).ok)).length ∧
    (∃ new : List Incident,
      (bulkUploadRoute s rows gen now).2.incidents = s.incidents ++ new ∧
      new.length = (bulkUploadRoute s rows gen now).1.created) ∧
    (bulkUploadRoute ⟨[], true, none⟩ exampleRows gen now).1
      = { totalRows := 3, created := 2, skipped := 1 } ∧
    (bulkUploadRoute ⟨[], true, none⟩ exampleRows gen now).2.incidents.length = 2 := by
  obtain ⟨h1, h2, new, h3, h4⟩ := bulkRows_spec rows s gen now 0 0
  have htot : (bulkUploadRoute s rows gen now).1.totalRows = rows.length := rfl
  have hcreated : (bulkUploadRoute s rows gen now).1.created
      = (rows.filter (fun row => (validateCreateIncident row).ok)).length := by
    simpa [bulkUploadRoute] using h1
  have hskipped : (bulkUploadRoute s rows gen now).1.skipped
      = (rows.filter (fun row => !(validateCreateIncident row).ok)).length := by
    simpa [bulkUploadRoute] using h2
  refine ⟨htot, ?_, hcreated, ⟨new, ?_, ?_⟩, rfl, rfl⟩
  · rw [hcreated, hskipped]
    exact filter_not_length _ rows
  · simpa [bulkUploadRoute] using h3
  · rw [hcreated]
    exact h4

end Incidents
